import Mathlib

set_option maxHeartbeats 1000000

/-!
Shallow embedding of the loglog terminal log browser (Rust sources:
table.rs, log_groups.rs, log_group.rs, log_viewer.rs, aws.rs, main.rs,
shared.rs) together with theorems settling the frozen claims about it.

Machine integers are modeled as Nat; usize and u16 overflow is made
explicit with the moduli below (release-build wrapping semantics; a
debug build would abort on the same underflows, which is noted at each
use site).
-/

namespace Loglog

/-- usize modulus, 2 to the 64. -/
def USIZE : Nat := 18446744073709551616

/-- u16 modulus. -/
def U16MOD : Nat := 65536

/-- shared.rs and main.rs LoadingState enum. -/
inductive LoadingState where
  | idle
  | loading
  | loaded
  | error (e : String)
deriving DecidableEq

/-! ## table.rs -/

/-- table.rs Table: scroll offset y (counted from the bottom) and the line data. -/
structure Table where
  y : Nat
  data : List String
deriving DecidableEq

/-- Table::new. -/
def Table.new (data : List String) : Table := ⟨0, data⟩

/-- table.rs scroll_down: y = max(y.saturating_sub(by), 0); Nat subtraction is saturating. -/
def Table.scroll_down (t : Table) (b : Option Nat) : Table :=
  { t with y := max (t.y - b.getD 1) 0 }

/-- table.rs scroll_up: y = min(y.saturating_add(by), data.len() - 1).
The usize expression data.len() - 1 wraps when the data is empty
(release semantics; a debug build aborts there). -/
def Table.scroll_up (t : Table) (b : Option Nat) : Table :=
  { t with y := min (min (t.y + b.getD 1) (USIZE - 1)) ((t.data.length + USIZE - 1) % USIZE) }

/-- table.rs render: innner_height = (height - 2) as usize, a u16 subtraction
that wraps when height = 1 (the guard only rejects height < 1). -/
def Table.innerHeight (height : Nat) : Nat := (height + U16MOD - 2) % U16MOD

/-- table.rs render: starting = min(self.y, self.data.len().saturating_sub(innner_height)). -/
def Table.renderStart (t : Table) (height : Nat) : Nat :=
  min t.y (t.data.length - Table.innerHeight height)

/-- table.rs render: the lines drawn, top to bottom. The code iterates
data.iter().rev().skip(starting).take(innner_height) and then reverses
that iterator before drawing. -/
def Table.renderLines (t : Table) (height : Nat) : List String :=
  if height < 1 then []
  else ((t.data.reverse.drop (t.renderStart height)).take (Table.innerHeight height)).reverse

theorem innerHeight_eq (h : Nat) (h2 : 2 ≤ h) (h3 : h ≤ 65535) :
    Table.innerHeight h = h - 2 := by
  unfold Table.innerHeight U16MOD
  omega

/-- C3 (counterexample): at viewport height 1 with one line, the render
draws 1 line, not min(n, max(0, h-2)) = 0 lines: the u16 expression
height - 2 underflows past the height < 1 guard. -/
theorem c3_counterexample :
    ((Table.mk 0 ["x"]).renderLines 1).length = 1 ∧
    ((Table.mk 0 ["x"]).renderLines 1).length ≠
      min (Table.mk 0 ["x"]).data.length (max 0 (1 - 2)) := by
  constructor <;> decide

/-- C3 (amended): for every scroll offset, line count n and viewport height h
with h = 0 or 2 ≤ h ≤ 65535 (at h = 1 the u16 subtraction h - 2 underflows),
the render draws exactly min(n, max(0, h-2)) lines and the clamped start
never exceeds n; concretely with h = 5 (inner height 3) and n = 10,
offset 0 draws lines 8,9,10 and offset 2 draws lines 6,7,8. -/
theorem c3_render_window (t : Table) (h : Nat)
    (hh : h = 0 ∨ (2 ≤ h ∧ h ≤ 65535)) :
    (t.renderLines h).length = min t.data.length (h - 2) ∧
    t.renderStart h ≤ t.data.length ∧
    (Table.mk 0 ["1", "2", "3", "4", "5", "6", "7", "8", "9", "10"]).renderLines 5
      = ["8", "9", "10"] ∧
    (Table.mk 2 ["1", "2", "3", "4", "5", "6", "7", "8", "9", "10"]).renderLines 5
      = ["6", "7", "8"] := by
  refine ⟨?_, ?_, by decide, by decide⟩
  · rcases hh with h0 | ⟨h2, h3⟩
    · subst h0
      simp [Table.renderLines]
    · have hih := innerHeight_eq h h2 h3
      unfold Table.renderLines
      rw [if_neg (by omega)]
      simp only [List.length_reverse, List.length_take, List.length_drop,
        Table.renderStart, hih]
      omega
  · exact le_trans (min_le_right _ _) (Nat.sub_le _ _)

/-- C3 witness: the amended render theorem applied at height 5 on a
single-line table. -/
theorem c3_render_window_witness :
    ((5 : Nat) = 0 ∨ ((2 : Nat) ≤ 5 ∧ (5 : Nat) ≤ 65535)) ∧
    (((Table.mk 0 ["a"]).renderLines 5).length
        = min (Table.mk 0 ["a"]).data.length (5 - 2) ∧
      (Table.mk 0 ["a"]).renderStart 5 ≤ (Table.mk 0 ["a"]).data.length ∧
      (Table.mk 0 ["1", "2", "3", "4", "5", "6", "7", "8", "9", "10"]).renderLines 5
        = ["8", "9", "10"] ∧
      (Table.mk 2 ["1", "2", "3", "4", "5", "6", "7", "8", "9", "10"]).renderLines 5
        = ["6", "7", "8"]) :=
  ⟨Or.inr (by decide), c3_render_window (Table.mk 0 ["a"]) 5 (Or.inr (by decide))⟩

/-- C4 (counterexample): scroll_up on an empty table leaves offset 1, outside
the claimed clamp interval [0, max(0, lineCount - innerHeight)] = [0, 0]:
the usize bound data.len() - 1 underflows on an empty list. -/
theorem c4_counterexample :
    ((Table.new []).scroll_up Option.none).y = 1 ∧
    ¬ ((Table.new []).scroll_up Option.none).y ≤
        max 0 ((Table.new []).data.length - 3) := by
  constructor <;> decide

/-- C4 (amended): on a non-empty line list, scroll_up leaves the offset
clamped at most lineCount - 1 (the bound the code uses, not
lineCount - innerHeight: the widget stores no viewport height), and
scroll_down never increases the offset; both are total (no abort under
release wrapping semantics). -/
theorem c4_scroll_clamped (t : Table) (b : Option Nat)
    (h1 : t.data ≠ []) (h2 : t.data.length < USIZE) :
    (t.scroll_up b).y ≤ t.data.length - 1 ∧
    (t.scroll_down b).y ≤ t.y := by
  have hl : 1 ≤ t.data.length := List.length_pos.mpr h1
  constructor
  · have e1 : t.data.length + USIZE - 1 = (t.data.length - 1) + USIZE := by omega
    have e2 : (t.data.length + USIZE - 1) % USIZE = t.data.length - 1 := by
      rw [e1, Nat.add_mod_right, Nat.mod_eq_of_lt (by omega)]
    simp only [Table.scroll_up, e2]
    exact min_le_right _ _
  · simp only [Table.scroll_down]
    omega

/-- C4 witness: the amended scroll theorem applied to a one-line table. -/
theorem c4_scroll_clamped_witness :
    ((Table.mk 0 ["a"]).data ≠ [] ∧ (Table.mk 0 ["a"]).data.length < USIZE) ∧
    (((Table.mk 0 ["a"]).scroll_up Option.none).y ≤ (Table.mk 0 ["a"]).data.length - 1 ∧
      ((Table.mk 0 ["a"]).scroll_down Option.none).y ≤ (Table.mk 0 ["a"]).y) :=
  ⟨⟨by decide, by decide⟩,
    c4_scroll_clamped (Table.mk 0 ["a"]) Option.none (by decide) (by decide)⟩

/-! ## log_groups.rs: LogGroupListComponent -/

/-- The shared part of the list component (log_groups.rs LogGroupListState):
group names, loading state and the ratatui table selection. -/
structure LogGroupListState where
  log_groups : List String
  loading_state : LoadingState
  selected : Option Nat
deriving DecidableEq

/-- log_groups.rs LogGroupListComponent: shared state plus the local filtered
view, search term and search-mode flag. -/
structure LogGroupListComponent where
  state : LogGroupListState
  sorted_log_groups : List (String × List Nat)
  search_term : String
  is_searching : Bool
deriving DecidableEq

/-- The external fuzzy matcher (fuzzy_matcher SkimMatcherV2 fuzzy_indices),
an injected collaborator: candidate and term to optional score and
matched character indices. -/
def Matcher : Type := String → String → Option (Int × List Nat)

/-- log_groups.rs apply_search filter predicate: match score { Some((s, _)) => s > 5, None => false }. -/
def scoreAboveThreshold (p : String × Option (Int × List Nat)) : Bool :=
  match p.2 with
  | some si => decide (5 < si.1)
  | none => false

/-- log_groups.rs apply_search pipeline for a non-empty term: map each group
to its match result, keep score > 5, project to (group, indices) with
unwrap_or_default. -/
def searchFilter (m : Matcher) (t : String) (groups : List String) :
    List (String × List Nat) :=
  ((groups.map (fun g => (g, m g t))).filter scoreAboveThreshold).map
    (fun p => (p.1, (p.2.getD (0, [])).2))

/-- log_groups.rs apply_search: empty term reproduces the unfiltered list with
empty index lists, otherwise runs the matcher pipeline. -/
def applySearch (m : Matcher) (c : LogGroupListComponent) : LogGroupListComponent :=
  if c.search_term = "" then
    { c with sorted_log_groups := c.state.log_groups.map (fun g => (g, [])) }
  else
    { c with sorted_log_groups := searchFilter m c.search_term c.state.log_groups }

theorem applySearch_search_term (m : Matcher) (c : LogGroupListComponent) :
    (applySearch m c).search_term = c.search_term := by
  unfold applySearch
  split <;> rfl

/-- C5: filtering with the empty search term returns the candidate list in its
original order, each with an empty matched-index list. -/
theorem c5_empty_term (m : Matcher) (c : LogGroupListComponent)
    (h : c.search_term = "") :
    (applySearch m c).sorted_log_groups
        = c.state.log_groups.map (fun g => (g, ([] : List Nat))) ∧
    (applySearch m c).sorted_log_groups.map Prod.fst = c.state.log_groups := by
  constructor
  · simp [applySearch, h]
  · simp [applySearch, h, Function.comp_def]

/-- C5 witness: the empty-term theorem applied to a concrete two-candidate list. -/
theorem c5_empty_term_witness :
    (LogGroupListComponent.mk ⟨["api-gateway", "billing"], LoadingState.loaded,
        Option.none⟩ [] "" false).search_term = "" ∧
    ((applySearch (fun _ _ => Option.none)
        (LogGroupListComponent.mk ⟨["api-gateway", "billing"], LoadingState.loaded,
          Option.none⟩ [] "" false)).sorted_log_groups
        = (LogGroupListComponent.mk ⟨["api-gateway", "billing"], LoadingState.loaded,
          Option.none⟩ [] "" false).state.log_groups.map (fun g => (g, ([] : List Nat))) ∧
      (applySearch (fun _ _ => Option.none)
        (LogGroupListComponent.mk ⟨["api-gateway", "billing"], LoadingState.loaded,
          Option.none⟩ [] "" false)).sorted_log_groups.map Prod.fst
        = (LogGroupListComponent.mk ⟨["api-gateway", "billing"], LoadingState.loaded,
          Option.none⟩ [] "" false).state.log_groups) :=
  ⟨rfl, c5_empty_term (fun _ _ => Option.none) _ rfl⟩

theorem mem_searchFilter_iff (m : Matcher) (t : String) (groups : List String)
    (g : String) :
    g ∈ (searchFilter m t groups).map Prod.fst ↔
      g ∈ groups ∧ ∃ s i, m g t = some (s, i) ∧ 5 < s := by
  induction groups with
  | nil => simp [searchFilter]
  | cons a as ih =>
    by_cases hsc : scoreAboveThreshold (a, m a t) = true
    · have step : searchFilter m t (a :: as)
          = (a, ((m a t).getD (0, [])).2) :: searchFilter m t as := by
        simp [searchFilter, List.filter_cons, hsc]
      rw [step]
      simp only [List.map_cons, List.mem_cons, ih]
      constructor
      · rintro (rfl | ⟨hmem, hs⟩)
        · refine ⟨Or.inl rfl, ?_⟩
          unfold scoreAboveThreshold at hsc
          rcases hm : m g t with _ | ⟨s, i⟩
          · rw [hm] at hsc; simp at hsc
          · rw [hm] at hsc
            simp only [decide_eq_true_eq] at hsc
            exact ⟨s, i, rfl, hsc⟩
        · exact ⟨Or.inr hmem, hs⟩
      · rintro ⟨(rfl | hmem), hs⟩
        · exact Or.inl rfl
        · exact Or.inr ⟨hmem, hs⟩
    · have step : searchFilter m t (a :: as) = searchFilter m t as := by
        simp [searchFilter, List.filter_cons, hsc]
      rw [step, ih]
      simp only [List.mem_cons]
      constructor
      · rintro ⟨hmem, hs⟩
        exact ⟨Or.inr hmem, hs⟩
      · rintro ⟨(rfl | hmem), hs⟩
        · exfalso
          obtain ⟨s, i, hm, h5⟩ := hs
          unfold scoreAboveThreshold at hsc
          rw [hm] at hsc
          simp only [decide_eq_true_eq] at hsc
          exact hsc h5
        · exact ⟨hmem, hs⟩

/-- C6: with a non-empty term, a candidate appears in the filtered result
exactly when its fuzzy-match score is strictly greater than 5 (no match at
all excludes it). -/
theorem c6_threshold (m : Matcher) (c : LogGroupListComponent) (g : String)
    (h : c.search_term ≠ "") :
    g ∈ (applySearch m c).sorted_log_groups.map Prod.fst ↔
      g ∈ c.state.log_groups ∧
        ∃ s i, m g c.search_term = some (s, i) ∧ 5 < s := by
  unfold applySearch
  rw [if_neg h]
  exact mem_searchFilter_iff m c.search_term c.state.log_groups g

/-- A concrete matcher for the C6 witness: only the pair
(auth-service, au) matches, with score 20 and indices 0,1. -/
def matcherAu : Matcher :=
  fun cand t =>
    if cand = "auth-service" ∧ t = "au" then some (20, [0, 1]) else Option.none

/-- C6 witness: the threshold theorem applied to the scenario candidate list
and term au. -/
theorem c6_threshold_witness :
    (LogGroupListComponent.mk ⟨["api-gateway", "auth-service", "billing"],
        LoadingState.loaded, Option.none⟩ [] "au" true).search_term ≠ "" ∧
    ("auth-service" ∈ (applySearch matcherAu
        (LogGroupListComponent.mk ⟨["api-gateway", "auth-service", "billing"],
          LoadingState.loaded, Option.none⟩ [] "au" true)).sorted_log_groups.map Prod.fst ↔
      "auth-service" ∈ (LogGroupListComponent.mk ⟨["api-gateway", "auth-service", "billing"],
          LoadingState.loaded, Option.none⟩ [] "au" true).state.log_groups ∧
        ∃ s i, matcherAu "auth-service"
            (LogGroupListComponent.mk ⟨["api-gateway", "auth-service", "billing"],
              LoadingState.loaded, Option.none⟩ [] "au" true).search_term = some (s, i) ∧
          5 < s) :=
  ⟨by decide, c6_threshold matcherAu _ "auth-service" (by decide)⟩

/-- C8: apply_search is idempotent: it only replaces the filtered view, and
the inputs it reads (the shared group list and the search term) are unchanged
by it. -/
theorem c8_idempotent (m : Matcher) (c : LogGroupListComponent) :
    applySearch m (applySearch m c) = applySearch m c := by
  cases c with
  | mk st sorted term searching =>
    by_cases h : term = "" <;> simp [applySearch, h]

/-! ## crossterm events and log_groups.rs handle_event -/

/-- crossterm KeyCode, restricted to the constructors the code inspects. -/
inductive KeyCode where
  | esc
  | enter
  | up
  | down
  | backspace
  | char (c : Char)
  | otherKey
deriving DecidableEq

/-- crossterm KeyEventKind. -/
inductive KeyEventKind where
  | press
  | release
  | repeatKind
deriving DecidableEq

/-- crossterm KeyEvent: code and kind (modifiers are not inspected here). -/
structure KeyEvent where
  code : KeyCode
  kind : KeyEventKind
deriving DecidableEq

/-- crossterm Event: a key event or any other event. -/
inductive Event where
  | key (k : KeyEvent)
  | nonKey
deriving DecidableEq

/-- log_groups.rs LogGroupSelectionOutboundMessage. -/
inductive LogGroupSelectionOutboundMessage where
  | selectedGroup (g : String)
  | applySearchMsg
deriving DecidableEq

/-- ratatui TableState select_next, modeled on the external collaborator:
saturating increment, starting at 0 when nothing is selected. -/
def selectNext (s : Option Nat) : Option Nat :=
  some (match s with
    | some i => min (i + 1) (USIZE - 1)
    | none => 0)

/-- ratatui TableState select_previous, modeled on the external collaborator:
saturating decrement, usize MAX when nothing is selected. -/
def selectPrevious (s : Option Nat) : Option Nat :=
  some (match s with
    | some i => i - 1
    | none => USIZE - 1)

/-- log_groups.rs handle_event, first block (guarded by KeyEventKind::Press):
Down and Up move the table selection, Enter emits SelectedGroup for the row
at the current selection. Returns the new shared state and the messages sent. -/
def pressNav (c : LogGroupListComponent) (k : KeyEvent) :
    LogGroupListState × List LogGroupSelectionOutboundMessage :=
  if k.kind = KeyEventKind.press then
    match k.code with
    | KeyCode.down => ({ c.state with selected := selectNext c.state.selected }, [])
    | KeyCode.up => ({ c.state with selected := selectPrevious c.state.selected }, [])
    | KeyCode.enter =>
        (c.state,
          match c.sorted_log_groups.get? (c.state.selected.getD 0) with
          | some p => [LogGroupSelectionOutboundMessage.selectedGroup p.1]
          | none => [])
    | _ => (c.state, [])
  else (c.state, [])

/-- log_groups.rs handle_event, search-mode key edit (runs for every key event
kind): Esc leaves search mode and restores the unfiltered view, Backspace pops
the last character, any character is appended to the term. -/
def searchModeKey (c : LogGroupListComponent) (k : KeyEvent) : LogGroupListComponent :=
  match k.code with
  | KeyCode.esc =>
      { c with
          is_searching := false,
          search_term := "",
          sorted_log_groups := c.state.log_groups.map (fun g => (g, [])) }
  | KeyCode.backspace => { c with search_term := String.mk c.search_term.data.dropLast }
  | KeyCode.char ch => { c with search_term := c.search_term.push ch }
  | _ => c

/-- log_groups.rs handle_event, non-search press block: the slash toggles
search mode, j and k move the selection; r spawns a background refetch, which
changes no synchronous component state. -/
def normalModeKey (c : LogGroupListComponent) (k : KeyEvent) : LogGroupListComponent :=
  if k.kind = KeyEventKind.press then
    match k.code with
    | KeyCode.char ch =>
        if ch = '/' then { c with is_searching := !c.is_searching }
        else if ch = 'j' then
          { c with state := { c.state with selected := selectNext c.state.selected } }
        else if ch = 'k' then
          { c with state := { c.state with selected := selectPrevious c.state.selected } }
        else c
    | _ => c
  else c

/-- Result of log_groups.rs handle_event: the updated component, the messages
sent over the outbound channel, and the returned Bool (true suppresses the
application quit in main.rs). -/
structure HandleEventResult where
  comp : LogGroupListComponent
  msgs : List LogGroupSelectionOutboundMessage
  preventExit : Bool
deriving DecidableEq

/-- log_groups.rs handle_event: the press-guarded navigation block, then, in
search mode, the term edit followed by apply_search and the return value
key.code == Esc or key.code == Char q; otherwise the normal-mode press block
and return false. -/
def handle_event (m : Matcher) (c : LogGroupListComponent) (e : Event) :
    HandleEventResult :=
  match e with
  | Event.nonKey => ⟨c, [], false⟩
  | Event.key k =>
    let p := pressNav c k
    let c1 : LogGroupListComponent := { c with state := p.1 }
    if c1.is_searching then
      ⟨applySearch m (searchModeKey c1 k), p.2,
        decide (k.code = KeyCode.esc ∨ k.code = KeyCode.char 'q')⟩
    else
      ⟨normalModeKey c1 k, p.2, false⟩

/-- main.rs App::handle_event quit decision, starting from should_quit = false:
the app quits exactly on a pressed q or Esc whose component call did not
return true. -/
def appShouldQuit (preventExit : Bool) (e : Event) : Bool :=
  match e with
  | Event.key k =>
      if k.kind = KeyEventKind.press ∧
          (k.code = KeyCode.char 'q' ∨ k.code = KeyCode.esc) then
        !preventExit
      else false
  | Event.nonKey => false

/-- C9: in search mode, handle_event returns true exactly for Esc or the
character q; pressing q appends q to the search term and the application does
not quit. -/
theorem c9_search_mode (m : Matcher) (c : LogGroupListComponent) (k : KeyEvent)
    (h : c.is_searching = true) :
    ((handle_event m c (Event.key k)).preventExit = true ↔
        (k.code = KeyCode.esc ∨ k.code = KeyCode.char 'q')) ∧
    (handle_event m c (Event.key ⟨KeyCode.char 'q', KeyEventKind.press⟩)).comp.search_term
        = c.search_term.push 'q' ∧
    appShouldQuit
        (handle_event m c (Event.key ⟨KeyCode.char 'q', KeyEventKind.press⟩)).preventExit
        (Event.key ⟨KeyCode.char 'q', KeyEventKind.press⟩) = false := by
  refine ⟨?_, ?_, ?_⟩
  · simp [handle_event, h]
  · simp [handle_event, h, pressNav, searchModeKey, applySearch_search_term]
  · simp [handle_event, appShouldQuit, h]

/-- C9 witness: the search-mode theorem applied to a concrete searching
component and the Esc key. -/
theorem c9_search_mode_witness :
    (LogGroupListComponent.mk ⟨["api-gateway"], LoadingState.loaded, Option.none⟩
        [] "a" true).is_searching = true ∧
    (((handle_event (fun _ _ => Option.none)
        (LogGroupListComponent.mk ⟨["api-gateway"], LoadingState.loaded, Option.none⟩
          [] "a" true)
        (Event.key ⟨KeyCode.esc, KeyEventKind.press⟩)).preventExit = true ↔
        ((⟨KeyCode.esc, KeyEventKind.press⟩ : KeyEvent).code = KeyCode.esc ∨
          (⟨KeyCode.esc, KeyEventKind.press⟩ : KeyEvent).code = KeyCode.char 'q')) ∧
      (handle_event (fun _ _ => Option.none)
        (LogGroupListComponent.mk ⟨["api-gateway"], LoadingState.loaded, Option.none⟩
          [] "a" true)
        (Event.key ⟨KeyCode.char 'q', KeyEventKind.press⟩)).comp.search_term
        = (LogGroupListComponent.mk ⟨["api-gateway"], LoadingState.loaded, Option.none⟩
          [] "a" true).search_term.push 'q' ∧
      appShouldQuit
        (handle_event (fun _ _ => Option.none)
          (LogGroupListComponent.mk ⟨["api-gateway"], LoadingState.loaded, Option.none⟩
            [] "a" true)
          (Event.key ⟨KeyCode.char 'q', KeyEventKind.press⟩)).preventExit
        (Event.key ⟨KeyCode.char 'q', KeyEventKind.press⟩) = false) :=
  ⟨rfl, c9_search_mode (fun _ _ => Option.none) _ ⟨KeyCode.esc, KeyEventKind.press⟩ rfl⟩

/-! ## aws.rs fetch_logs and the poll loops of log_viewer.rs and log_group.rs -/

/-- One field of a CloudWatch query result row (aws_sdk ResultField). -/
structure ResultField where
  field : Option String
  value : Option String
deriving DecidableEq

/-- aws_sdk QueryStatus. -/
inductive QueryStatus where
  | scheduled
  | running
  | complete
  | failed
  | timeout
  | cancelled
deriving DecidableEq

/-- QueryStatus to_string of the SDK enum, used for the error message on
Failed and Timeout. -/
def QueryStatus.toStringRepr : QueryStatus → String
  | QueryStatus.scheduled => "Scheduled"
  | QueryStatus.running => "Running"
  | QueryStatus.complete => "Complete"
  | QueryStatus.failed => "Failed"
  | QueryStatus.timeout => "Timeout"
  | QueryStatus.cancelled => "Cancelled"

/-- A get_query_results response: optional rows (each a list of fields) and
an optional status. -/
structure PollResponse where
  results : Option (List (List ResultField))
  status : Option QueryStatus
deriving DecidableEq

/-- The @message values of a response in collaborator row order:
results.unwrap_or_default().into_iter().flatten().filter(field == @message).map(value.unwrap_or_default()). -/
def rowMessages (rows : List (List ResultField)) : List String :=
  (rows.flatten.filter (fun r => r.field == some "@message")).map
    (fun r => r.value.getD "")

/-- aws.rs and log_viewer.rs message extraction: the row-order @message values
followed by .rev(). -/
def extractMessages (results : Option (List (List ResultField))) : List String :=
  (rowMessages (results.getD [])).reverse

/-- Outcome of aws.rs fetch_logs: the returned lines, a returned error, an
executed panic, or still polling when the supplied responses run out. -/
inductive FetchOutcome where
  | ok (lines : List String)
  | err (e : String)
  | panicked (e : String)
  | polling
deriving DecidableEq

/-- aws.rs poll loop over the successive get_query_results outcomes: a
transport error executes the panic branch; otherwise Complete returns the
extracted (reversed) messages, Failed and Timeout return the status string,
and every other status polls again. -/
def pollLoop : List (Except String PollResponse) → FetchOutcome
  | [] => FetchOutcome.polling
  | Except.error e :: _ => FetchOutcome.panicked e
  | Except.ok resp :: rest =>
    match resp.status with
    | some QueryStatus.complete => FetchOutcome.ok (extractMessages resp.results)
    | some QueryStatus.failed => FetchOutcome.err QueryStatus.failed.toStringRepr
    | some QueryStatus.timeout => FetchOutcome.err QueryStatus.timeout.toStringRepr
    | _ => pollLoop rest

/-- aws.rs fetch_logs: a start_query transport error returns Err(e.to_string());
otherwise the poll loop runs on the successive poll outcomes. -/
def fetch_logs (startRes : Except String (Option String))
    (polls : List (Except String PollResponse)) : FetchOutcome :=
  match startRes with
  | Except.error e => FetchOutcome.err e
  | Except.ok _ => pollLoop polls

/-- The scenario rows: collaborator row order c, a, b (chronologically the
oldest timestamp maps to c). -/
def rowsCAB : List (List ResultField) :=
  [[⟨some "@message", some "c"⟩], [⟨some "@message", some "a"⟩],
    [⟨some "@message", some "b"⟩]]

/-- The poll loop, run past any non-terminal responses up to a Complete one,
returns the reversed row-order messages of the final response. -/
theorem pollLoop_append_complete (pre : List (Except String PollResponse))
    (rows : List (List ResultField))
    (h : ∀ x ∈ pre, ∃ resp, x = Except.ok resp ∧
        (resp.status = some QueryStatus.running ∨
          resp.status = some QueryStatus.scheduled ∨ resp.status = none)) :
    pollLoop (pre ++ [Except.ok ⟨some rows, some QueryStatus.complete⟩])
      = FetchOutcome.ok (rowMessages rows).reverse := by
  induction pre with
  | nil => simp [pollLoop, extractMessages]
  | cons x xs ih =>
    have tail := ih (fun y hy => h y (List.mem_cons_of_mem x hy))
    obtain ⟨resp, rfl, hst⟩ := h x (List.mem_cons_self x xs)
    rw [List.cons_append]
    rcases hst with h1 | h1 | h1 <;> simp [pollLoop, h1, tail]

/-- log_viewer.rs and log_group.rs LogViewerOutboundMessage. -/
inductive LogViewerOutboundMessage where
  | reRender
  | unselectLogGroup
deriving DecidableEq

/-- How a poll loop that writes shared state ends: a Complete break, an
executed panic, or running out of supplied responses while still polling. -/
inductive RunResult where
  | done
  | panicked (e : String)
  | outOfPolls
deriving DecidableEq

/-- log_viewer.rs LogViewerState (shared): the lines and the loading state.
The field name log_messsages is kept from the source. -/
structure LogViewerState where
  log_messsages : List String
  loading_state : LoadingState
deriving DecidableEq

/-- log_viewer.rs fetch_logs poll loop: each Ok response overwrites
log_messsages with the reversed extraction; Complete sets Loaded
unconditionally, sends ReRender and breaks; Running keeps Loading; any other
status sets Idle; a transport error executes the panic branch. -/
def lvPoll : List (Except String PollResponse) →
    LogViewerState × List LogViewerOutboundMessage →
    (LogViewerState × List LogViewerOutboundMessage) × RunResult
  | [], s => (s, RunResult.outOfPolls)
  | Except.error e :: _, s => (s, RunResult.panicked e)
  | Except.ok resp :: rest, (st, ms) =>
    let st1 := { st with log_messsages := extractMessages resp.results }
    match resp.status with
    | some QueryStatus.complete =>
        (({ st1 with loading_state := LoadingState.loaded },
          ms ++ [LogViewerOutboundMessage.reRender]), RunResult.done)
    | some QueryStatus.running =>
        lvPoll rest ({ st1 with loading_state := LoadingState.loading }, ms)
    | _ => lvPoll rest ({ st1 with loading_state := LoadingState.idle }, ms)

/-- log_viewer.rs fetch_logs: sets Loading on entry; a start_query transport
error executes the panic branch, otherwise the poll loop runs. -/
def lv_fetch_logs (startRes : Except String (Option String))
    (polls : List (Except String PollResponse)) (st : LogViewerState) :
    (LogViewerState × List LogViewerOutboundMessage) × RunResult :=
  match startRes with
  | Except.error e =>
      (({ st with loading_state := LoadingState.loading }, []), RunResult.panicked e)
  | Except.ok _ => lvPoll polls ({ st with loading_state := LoadingState.loading }, [])

/-- log_group.rs LogViewerState (shared state of LogVieweromponent): lines,
loading state and the table selection. -/
structure LogGroupViewerState where
  log_messsages : List String
  loading_state : LoadingState
  selected : Option Nat
deriving DecidableEq

/-- log_group.rs fetch_log_groups poll loop: each Ok response overwrites
log_messsages with the row-order extraction (no reverse in this file);
on Complete, Loaded and the selection are set only when the messages are
non-empty, then ReRender is sent and the loop breaks; Running keeps Loading;
any other status sets Idle; a transport error executes the panic branch. -/
def lgPoll : List (Except String PollResponse) →
    LogGroupViewerState × List LogViewerOutboundMessage →
    (LogGroupViewerState × List LogViewerOutboundMessage) × RunResult
  | [], s => (s, RunResult.outOfPolls)
  | Except.error e :: _, s => (s, RunResult.panicked e)
  | Except.ok resp :: rest, (st, ms) =>
    let st1 := { st with log_messsages := rowMessages (resp.results.getD []) }
    match resp.status with
    | some QueryStatus.complete =>
        let st2 :=
          if st1.log_messsages = [] then st1
          else
            { st1 with
                loading_state := LoadingState.loaded,
                selected := some (st1.log_messsages.length - 1) }
        ((st2, ms ++ [LogViewerOutboundMessage.reRender]), RunResult.done)
    | some QueryStatus.running =>
        lgPoll rest ({ st1 with loading_state := LoadingState.loading }, ms)
    | _ => lgPoll rest ({ st1 with loading_state := LoadingState.idle }, ms)

/-- log_group.rs fetch_log_groups of LogVieweromponent: sets Loading on
entry; a start_query transport error executes the panic branch, otherwise
the poll loop runs. -/
def lg_fetch_log_groups (startRes : Except String (Option String))
    (polls : List (Except String PollResponse)) (st : LogGroupViewerState) :
    (LogGroupViewerState × List LogViewerOutboundMessage) × RunResult :=
  match startRes with
  | Except.error e =>
      (({ st with loading_state := LoadingState.loading }, []), RunResult.panicked e)
  | Except.ok _ => lgPoll polls ({ st with loading_state := LoadingState.loading }, [])

/-- The log_group.rs poll loop, run past any non-terminal responses up to a
Complete one, leaves log_messsages holding exactly the row-order messages of
the final response: this file applies no reversal. -/
theorem lgPoll_append_complete (pre : List (Except String PollResponse))
    (rows : List (List ResultField))
    (h : ∀ x ∈ pre, ∃ resp, x = Except.ok resp ∧
        (resp.status = some QueryStatus.running ∨
          resp.status = some QueryStatus.scheduled ∨ resp.status = none)) :
    ∀ (st : LogGroupViewerState) (ms : List LogViewerOutboundMessage),
      (lgPoll (pre ++ [Except.ok ⟨some rows, some QueryStatus.complete⟩])
          (st, ms)).1.1.log_messsages = rowMessages rows := by
  induction pre with
  | nil =>
    intro st ms
    rw [List.nil_append]
    by_cases hc : rowMessages rows = [] <;> simp [lgPoll, hc]
  | cons x xs ih =>
    intro st ms
    have tail := ih (fun y hy => h y (List.mem_cons_of_mem x hy))
    obtain ⟨resp, rfl, hst⟩ := h x (List.mem_cons_self x xs)
    rw [List.cons_append]
    rcases hst with h1 | h1 | h1 <;> simp [lgPoll, h1, tail]

/-- C1 (counterexample): for collaborator row order c, a, b with chronological
timestamps t0 lt t1 lt t2, the completed aws.rs fetch returns b, a, c — the
plain reverse of the row order — and the log_group.rs fetch leaves c, a, b —
the row order unchanged; neither equals the chronological a, b, c the claim
requires. -/
theorem c1_counterexample :
    fetch_logs (Except.ok (some "q"))
        [Except.ok ⟨some rowsCAB, some QueryStatus.complete⟩]
      = FetchOutcome.ok ["b", "a", "c"] ∧
    FetchOutcome.ok ["b", "a", "c"] ≠ FetchOutcome.ok ["a", "b", "c"] ∧
    (lg_fetch_log_groups (Except.ok (some "q"))
        [Except.ok ⟨some rowsCAB, some QueryStatus.complete⟩]
        ⟨[], LoadingState.idle, Option.none⟩).1.1.log_messsages
      = ["c", "a", "b"] ∧
    (["c", "a", "b"] : List String) ≠ ["a", "b", "c"] := by
  refine ⟨by decide, by decide, by decide, by decide⟩

/-- C1 (amended): neither cited retrieval path orders the final lines by
timestamp, so the result is not chronological regardless of collaborator row
order. After any run of non-terminal polls ending in a Complete response,
aws.rs fetch_logs returns exactly the reverse of the @message values in
collaborator row order (its extraction ends in .rev()), while the
log_group.rs fetch_log_groups loop leaves log_messsages holding exactly the
collaborator row order (its extraction has no reversal); feeding rows c, a, b
they yield b, a, c and c, a, b respectively, and oldest-first order is
obtained only when the collaborator ordering happens to match (newest-first
for aws.rs, oldest-first for log_group.rs). -/
theorem c1_amended (q : Option String) (pre : List (Except String PollResponse))
    (rows : List (List ResultField)) (st : LogGroupViewerState)
    (h : ∀ x ∈ pre, ∃ resp, x = Except.ok resp ∧
        (resp.status = some QueryStatus.running ∨
          resp.status = some QueryStatus.scheduled ∨ resp.status = none)) :
    fetch_logs (Except.ok q)
        (pre ++ [Except.ok ⟨some rows, some QueryStatus.complete⟩])
      = FetchOutcome.ok (rowMessages rows).reverse ∧
    (lg_fetch_log_groups (Except.ok q)
        (pre ++ [Except.ok ⟨some rows, some QueryStatus.complete⟩])
        st).1.1.log_messsages = rowMessages rows :=
  ⟨pollLoop_append_complete pre rows h,
    lgPoll_append_complete pre rows h
      { st with loading_state := LoadingState.loading } []⟩

/-- C1 witness: the amended theorem applied to one Running poll followed by
the Complete response carrying the scenario rows. -/
theorem c1_amended_witness :
    (∀ x ∈ [(Except.ok ⟨some [], some QueryStatus.running⟩ :
        Except String PollResponse)],
      ∃ resp, x = Except.ok resp ∧
        (resp.status = some QueryStatus.running ∨
          resp.status = some QueryStatus.scheduled ∨ resp.status = none)) ∧
    (fetch_logs (Except.ok (some "q"))
        ([(Except.ok ⟨some [], some QueryStatus.running⟩ :
            Except String PollResponse)] ++
          [Except.ok ⟨some rowsCAB, some QueryStatus.complete⟩])
      = FetchOutcome.ok (rowMessages rowsCAB).reverse ∧
    (lg_fetch_log_groups (Except.ok (some "q"))
        ([(Except.ok ⟨some [], some QueryStatus.running⟩ :
            Except String PollResponse)] ++
          [Except.ok ⟨some rowsCAB, some QueryStatus.complete⟩])
        ⟨[], LoadingState.idle, Option.none⟩).1.1.log_messsages
      = rowMessages rowsCAB) :=
  ⟨fun x hx => by
      rw [List.mem_singleton] at hx
      exact ⟨⟨some [], some QueryStatus.running⟩, hx, Or.inl rfl⟩,
    c1_amended (some "q") [Except.ok ⟨some [], some QueryStatus.running⟩] rowsCAB
      ⟨[], LoadingState.idle, Option.none⟩
      (fun x hx => by
        rw [List.mem_singleton] at hx
        exact ⟨⟨some [], some QueryStatus.running⟩, hx, Or.inl rfl⟩)⟩

/-- C2 (code bug evidence): a transport error on a poll attempt executes the
panic branch of aws.rs fetch_logs instead of producing a Failed state, and
log_viewer.rs even panics on a start_query transport error; only the aws.rs
start_query path returns the error as a value. -/
theorem c2_transport_error_panics :
    fetch_logs (Except.ok (some "q")) [Except.error "connection reset"]
      = FetchOutcome.panicked "connection reset" ∧
    (lv_fetch_logs (Except.error "connection reset") []
        ⟨[], LoadingState.idle⟩).2 = RunResult.panicked "connection reset" ∧
    (lv_fetch_logs (Except.ok (some "q")) [Except.error "connection reset"]
        ⟨[], LoadingState.idle⟩).2 = RunResult.panicked "connection reset" ∧
    fetch_logs (Except.error "no credentials") []
      = FetchOutcome.err "no credentials" := by
  refine ⟨by decide, by decide, by decide, by decide⟩

/-- C7 (code bug evidence): in log_group.rs, a Complete response with zero
result rows ends the poll loop (ReRender sent, loop done) with the shared
loading state still Loading, never Loaded; the sibling loop in log_viewer.rs
sets Loaded unconditionally on the same input. -/
theorem c7_empty_complete_stays_loading :
    (lg_fetch_log_groups (Except.ok (some "q"))
        [Except.ok ⟨some [], some QueryStatus.complete⟩]
        ⟨[], LoadingState.idle, Option.none⟩).1.1.loading_state
      = LoadingState.loading ∧
    (lg_fetch_log_groups (Except.ok (some "q"))
        [Except.ok ⟨some [], some QueryStatus.complete⟩]
        ⟨[], LoadingState.idle, Option.none⟩).2 = RunResult.done ∧
    (lg_fetch_log_groups (Except.ok (some "q"))
        [Except.ok ⟨some [], some QueryStatus.complete⟩]
        ⟨[], LoadingState.idle, Option.none⟩).1.2
      = [LogViewerOutboundMessage.reRender] ∧
    LoadingState.loading ≠ LoadingState.loaded ∧
    (lv_fetch_logs (Except.ok (some "q"))
        [Except.ok ⟨some [], some QueryStatus.complete⟩]
        ⟨[], LoadingState.idle⟩).1.1.loading_state = LoadingState.loaded := by
  refine ⟨by decide, by decide, by decide, by decide, by decide⟩

/-! ## log_groups.rs fetch_log_groups: the paginated group listing -/

/-- One describe_log_groups response page: optional group names (each group
carries an optional name) and the optional continuation token. -/
structure DescribePage where
  log_groups : Option (List (Option String))
  next_token : Option String
deriving DecidableEq

/-- log_groups.rs fetch_log_groups loop over successive describe_log_groups
outcomes: a transport error sets Error(e), clears the accumulated group list
and returns; an Ok page extends the list, selects the first row when the list
is non-empty, sends ApplySearch, and either continues on a continuation token
or finishes with Loaded. -/
def groupsFetchLoop : List (Except String DescribePage) →
    LogGroupListState × List LogGroupSelectionOutboundMessage →
    LogGroupListState × List LogGroupSelectionOutboundMessage
  | [], s => s
  | Except.error e :: _, (st, ms) =>
      ({ st with loading_state := LoadingState.error e, log_groups := [] }, ms)
  | Except.ok page :: rest, (st, ms) =>
      let pageGroups := (page.log_groups.getD []).filterMap id
      let st1 := { st with log_groups := st.log_groups ++ pageGroups }
      let st2 := if st1.log_groups = [] then st1 else { st1 with selected := some 0 }
      let ms1 := ms ++ [LogGroupSelectionOutboundMessage.applySearchMsg]
      match page.next_token with
      | some _ => groupsFetchLoop rest (st2, ms1)
      | none => ({ st2 with loading_state := LoadingState.loaded }, ms1)

/-- log_groups.rs fetch_log_groups: sets Loading on entry and runs the page
loop. -/
def fetch_log_groups (responses : List (Except String DescribePage))
    (st : LogGroupListState) :
    LogGroupListState × List LogGroupSelectionOutboundMessage :=
  groupsFetchLoop responses ({ st with loading_state := LoadingState.loading }, [])

theorem groupsFetchLoop_error (good : List DescribePage) (e : String)
    (rest : List (Except String DescribePage)) :
    ∀ (s : LogGroupListState) (ms : List LogGroupSelectionOutboundMessage),
      (∀ p ∈ good, p.next_token.isSome = true) →
      (groupsFetchLoop (good.map Except.ok ++ Except.error e :: rest)
          (s, ms)).1.loading_state = LoadingState.error e ∧
      (groupsFetchLoop (good.map Except.ok ++ Except.error e :: rest)
          (s, ms)).1.log_groups = [] := by
  induction good with
  | nil => intro s ms _; simp [groupsFetchLoop]
  | cons p ps ih =>
    intro s ms h
    obtain ⟨tk, htk⟩ := Option.isSome_iff_exists.mp (h p (List.mem_cons_self p ps))
    rw [List.map_cons, List.cons_append]
    show (groupsFetchLoop (Except.ok p :: (ps.map Except.ok ++ Except.error e :: rest))
        (s, ms)).1.loading_state = LoadingState.error e ∧ _
    unfold groupsFetchLoop
    rw [htk]
    exact ih _ _ (fun q hq => h q (List.mem_cons_of_mem p hq))

/-- C10: if any page of the paginated group listing fails, the fetch ends with
loading state Error(reason) and an empty group list, discarding the groups of
every earlier successful page and consuming no further responses. -/
theorem c10_error_clears (good : List DescribePage) (e : String)
    (rest : List (Except String DescribePage)) (st : LogGroupListState)
    (h : ∀ p ∈ good, p.next_token.isSome = true) :
    (fetch_log_groups (good.map Except.ok ++ Except.error e :: rest)
        st).1.loading_state = LoadingState.error e ∧
    (fetch_log_groups (good.map Except.ok ++ Except.error e :: rest)
        st).1.log_groups = [] := by
  unfold fetch_log_groups
  exact groupsFetchLoop_error good e rest _ _ h

/-- C10 witness: one successful page carrying a group and a token, then a
transport error; the final state is Error with an empty group list. -/
theorem c10_error_clears_witness :
    (∀ p ∈ [(⟨some [some "g1"], some "tok"⟩ : DescribePage)],
      p.next_token.isSome = true) ∧
    ((fetch_log_groups
        ([(⟨some [some "g1"], some "tok"⟩ : DescribePage)].map Except.ok ++
          Except.error "boom" :: [])
        ⟨[], LoadingState.idle, Option.none⟩).1.loading_state
        = LoadingState.error "boom" ∧
      (fetch_log_groups
        ([(⟨some [some "g1"], some "tok"⟩ : DescribePage)].map Except.ok ++
          Except.error "boom" :: [])
        ⟨[], LoadingState.idle, Option.none⟩).1.log_groups = []) :=
  ⟨by decide,
    c10_error_clears [⟨some [some "g1"], some "tok"⟩] "boom" []
      ⟨[], LoadingState.idle, Option.none⟩ (by decide)⟩

end Loglog
